import Mathlib

/-!
Verification of the `parsim` particle simulation (`src/main.rs`).

The program is a single-threaded 2D particle simulation. Its `f32`
arithmetic is modelled here over `ℚ` (exact real-valued semantics); the
claims that compare numeric results speak of values "within floating-point
tolerance", which the exact rational model settles by exact equality.
GPU objects (surface, device, pipeline, buffers) are modelled by the data
the program attaches to them: the configuration fields, the shader-source
constants substituted at pipeline build time, and the element count a
buffer was sized for.
-/

set_option maxRecDepth 10000

namespace Parsim

/-- `NUM_PARTICLES` from src/main.rs line 13. -/
def NUM_PARTICLES : Nat := 5000

/-- `PARTICLE_SIZE` from src/main.rs line 15. -/
def PARTICLE_SIZE : ℚ := 3.0

/-- `BOUNCE_DAMPING` from src/main.rs line 19. -/
def BOUNCE_DAMPING : ℚ := 0.7

/-- `INITIAL_VELOCITY_RANGE` from src/main.rs line 21. -/
def INITIAL_VELOCITY_RANGE : ℚ := 50.0

/-- `glam::Vec2`, a 2D float vector, with `f32` modelled as `ℚ`. -/
structure Vec2 where
  x : ℚ
  y : ℚ
deriving DecidableEq, Repr

/-- `GRAVITY` from src/main.rs line 17: `Vec2::new(0.0, 9.8)`. -/
def GRAVITY : Vec2 := ⟨0.0, 9.8⟩

/-- An RGBA color, modelling the `[f32; 4]` color array of a particle. -/
structure Color where
  r : ℚ
  g : ℚ
  b : ℚ
  a : ℚ
deriving DecidableEq, Repr

/-- `Particle` from src/main.rs lines 71-75. -/
structure Particle where
  position : Vec2
  velocity : Vec2
  color : Color
deriving DecidableEq, Repr

/-- `ParticleInstance` from src/main.rs lines 43-48 (GPU-facing projection). -/
structure ParticleInstance where
  position : Vec2
  color : Color
deriving DecidableEq, Repr

/-- `let radius = PARTICLE_SIZE / 2.0` from src/main.rs line 94. -/
def radius : ℚ := PARTICLE_SIZE / 2.0

/-- `self.velocity += GRAVITY * dt`, src/main.rs line 88. -/
def applyGravity (dt : ℚ) (p : Particle) : Particle :=
  { p with velocity := ⟨p.velocity.x + GRAVITY.x * dt, p.velocity.y + GRAVITY.y * dt⟩ }

/-- `self.position += self.velocity * dt`, src/main.rs line 91. -/
def applyVelocity (dt : ℚ) (p : Particle) : Particle :=
  { p with position := ⟨p.position.x + p.velocity.x * dt, p.position.y + p.velocity.y * dt⟩ }

/-- Bottom boundary check, src/main.rs lines 97-100. -/
def clampBottom (height : ℚ) (p : Particle) : Particle :=
  if p.position.y + radius > height then
    { p with position := ⟨p.position.x, height - radius⟩
           , velocity := ⟨p.velocity.x, -p.velocity.y * BOUNCE_DAMPING⟩ }
  else p

/-- Top boundary check, src/main.rs lines 103-106. -/
def clampTop (p : Particle) : Particle :=
  if p.position.y - radius < 0 then
    { p with position := ⟨p.position.x, radius⟩
           , velocity := ⟨p.velocity.x, -p.velocity.y * BOUNCE_DAMPING⟩ }
  else p

/-- Right boundary check, src/main.rs lines 109-112. -/
def clampRight (width : ℚ) (p : Particle) : Particle :=
  if p.position.x + radius > width then
    { p with position := ⟨width - radius, p.position.y⟩
           , velocity := ⟨-p.velocity.x * BOUNCE_DAMPING, p.velocity.y⟩ }
  else p

/-- Left boundary check, src/main.rs lines 115-118. -/
def clampLeft (p : Particle) : Particle :=
  if p.position.x - radius < 0 then
    { p with position := ⟨radius, p.position.y⟩
           , velocity := ⟨-p.velocity.x * BOUNCE_DAMPING, p.velocity.y⟩ }
  else p

/-- `Particle::update`, src/main.rs lines 86-119: gravity, motion, then the
four boundary checks in source order bottom, top, right, left, each reading
the state the previous one left. -/
def Particle.update (p : Particle) (dt width height : ℚ) : Particle :=
  clampLeft (clampRight width (clampTop (clampBottom height (applyVelocity dt (applyGravity dt p)))))

/-- `Particle::to_instance`, src/main.rs lines 121-127. -/
def Particle.to_instance (p : Particle) : ParticleInstance :=
  ⟨p.position, p.color⟩

lemma clampRight_position_y (width : ℚ) (p : Particle) :
    (clampRight width p).position.y = p.position.y := by
  unfold clampRight; split <;> rfl

lemma clampLeft_position_y (p : Particle) :
    (clampLeft p).position.y = p.position.y := by
  unfold clampLeft; split <;> rfl

lemma clampRight_velocity_y (width : ℚ) (p : Particle) :
    (clampRight width p).velocity.y = p.velocity.y := by
  unfold clampRight; split <;> rfl

lemma clampLeft_velocity_y (p : Particle) :
    (clampLeft p).velocity.y = p.velocity.y := by
  unfold clampLeft; split <;> rfl

lemma clampTop_clampBottom_y (p : Particle) (height : ℚ) (hh : 2 * radius ≤ height) :
    radius ≤ (clampTop (clampBottom height p)).position.y ∧
    (clampTop (clampBottom height p)).position.y ≤ height - radius := by
  unfold clampTop clampBottom
  split_ifs <;> simp_all <;> linarith

lemma clampLeft_clampRight_x (p : Particle) (width : ℚ) (hw : 2 * radius ≤ width) :
    radius ≤ (clampLeft (clampRight width p)).position.x ∧
    (clampLeft (clampRight width p)).position.x ≤ width - radius := by
  unfold clampLeft clampRight
  split_ifs <;> simp_all <;> linarith

/-- C1 counterexample particle: position (10, 1/2) inside the 800×1 box. -/
def c1Particle : Particle := ⟨⟨10, 1/2⟩, ⟨0, 0⟩, ⟨1, 1, 1, 1⟩⟩

/-- **C1 counterexample.** The claim quantifies over all bounds, but with
height 1 (smaller than the particle diameter 3) the bottom clamp moves the
particle to y = -1/2 and the top clamp then moves it to y = 3/2, which
exceeds height - radius = -1/2: the claimed containment fails. -/
theorem update_containment_cex :
    ¬ (radius ≤ (c1Particle.update 0 800 1).position.y ∧
       (c1Particle.update 0 800 1).position.y ≤ 1 - radius) := by
  norm_num [Particle.update, applyGravity, applyVelocity, clampBottom, clampTop,
    clampRight, clampLeft, radius, PARTICLE_SIZE, GRAVITY, BOUNCE_DAMPING, c1Particle]

/-- **C1 (amended).** Whenever the bounds are at least one particle diameter
wide and tall (width ≥ 2·radius and height ≥ 2·radius, i.e. ≥ PARTICLE_SIZE),
every integration step leaves the particle with
radius ≤ position.x ≤ width - radius and radius ≤ position.y ≤ height - radius. -/
theorem update_containment (p : Particle) (dt width height : ℚ)
    (hw : 2 * radius ≤ width) (hh : 2 * radius ≤ height) :
    radius ≤ (p.update dt width height).position.x ∧
    (p.update dt width height).position.x ≤ width - radius ∧
    radius ≤ (p.update dt width height).position.y ∧
    (p.update dt width height).position.y ≤ height - radius := by
  unfold Particle.update
  have hy := clampTop_clampBottom_y (applyVelocity dt (applyGravity dt p)) height hh
  have hx := clampLeft_clampRight_x
    (clampTop (clampBottom height (applyVelocity dt (applyGravity dt p)))) width hw
  rw [clampLeft_position_y, clampRight_position_y]
  exact ⟨hx.1, hx.2, hy.1, hy.2⟩

/-- Closed witness for the amended C1 at a concrete in-range input. -/
theorem update_containment_witness :
    2 * radius ≤ (800 : ℚ) ∧ 2 * radius ≤ (600 : ℚ) ∧
    (radius ≤ (c1Particle.update 0 800 600).position.x ∧
     (c1Particle.update 0 800 600).position.x ≤ 800 - radius ∧
     radius ≤ (c1Particle.update 0 800 600).position.y ∧
     (c1Particle.update 0 800 600).position.y ≤ 600 - radius) :=
  ⟨by norm_num [radius, PARTICLE_SIZE], by norm_num [radius, PARTICLE_SIZE],
   update_containment c1Particle 0 800 600
     (by norm_num [radius, PARTICLE_SIZE]) (by norm_num [radius, PARTICLE_SIZE])⟩

/-- C2 counterexample particle: position (10, 1000), outside 800×600 bounds. -/
def c2Particle : Particle := ⟨⟨10, 1000⟩, ⟨0, 0⟩, ⟨1, 1, 1, 1⟩⟩

/-- **C2 counterexample.** The claim quantifies over any position, but at
dt = 0 the boundary clamps still run: a particle at y = 1000 in a 800×600
box is clamped to y = 598.5, so `update 0 800 600` is not the identity. -/
theorem update_dt_zero_cex :
    (c2Particle.update 0 800 600).position ≠ c2Particle.position := by
  norm_num [Particle.update, applyGravity, applyVelocity, clampBottom, clampTop,
    clampRight, clampLeft, radius, PARTICLE_SIZE, GRAVITY, BOUNCE_DAMPING, c2Particle,
    Vec2.mk.injEq]

/-- **C2 (amended).** For particles whose position already satisfies the
containment invariant (radius ≤ x ≤ width - radius and
radius ≤ y ≤ height - radius), the integration step with dt = 0 leaves the
particle (position, velocity and color) exactly unchanged. -/
theorem update_dt_zero_identity (p : Particle) (width height : ℚ)
    (h1 : radius ≤ p.position.x) (h2 : p.position.x ≤ width - radius)
    (h3 : radius ≤ p.position.y) (h4 : p.position.y ≤ height - radius) :
    p.update 0 width height = p := by
  obtain ⟨⟨px, py⟩, ⟨vx, vy⟩, c⟩ := p
  simp only at h1 h2 h3 h4
  simp only [Particle.update, applyGravity, applyVelocity, clampBottom, clampTop,
    clampRight, clampLeft, GRAVITY, mul_zero, add_zero]
  norm_num
  split_ifs <;> first | rfl | (exfalso; linarith)

/-- Closed witness for the amended C2 at a concrete in-range input. -/
theorem update_dt_zero_identity_witness :
    (radius ≤ (10 : ℚ) ∧ (10 : ℚ) ≤ 800 - radius ∧
     radius ≤ (10 : ℚ) ∧ (10 : ℚ) ≤ 600 - radius) ∧
    Particle.update ⟨⟨10, 10⟩, ⟨5, 5⟩, ⟨1, 1, 1, 1⟩⟩ 0 800 600 = ⟨⟨10, 10⟩, ⟨5, 5⟩, ⟨1, 1, 1, 1⟩⟩ :=
  ⟨⟨by norm_num [radius, PARTICLE_SIZE], by norm_num [radius, PARTICLE_SIZE],
    by norm_num [radius, PARTICLE_SIZE], by norm_num [radius, PARTICLE_SIZE]⟩,
   update_dt_zero_identity ⟨⟨10, 10⟩, ⟨5, 5⟩, ⟨1, 1, 1, 1⟩⟩ 800 600
     (by norm_num [radius, PARTICLE_SIZE]) (by norm_num [radius, PARTICLE_SIZE])
     (by norm_num [radius, PARTICLE_SIZE]) (by norm_num [radius, PARTICLE_SIZE])⟩

/-- C3 witness particle: position (10,10), velocity (0,-100), white color. -/
def c3Particle : Particle := ⟨⟨10, 10⟩, ⟨0, -100⟩, ⟨1, 1, 1, 1⟩⟩

/-- **C3.** For the particle at position (10,10) with velocity (0,-100),
radius 1.5, dt 1, gravity (0,9.8), damping 0.7 and bounds 800×600, one
integration step yields position (10, 1.5) and velocity (0, 63.14) exactly
(over the rational model): the top-boundary clamp fires and
`velocity.y = 90.2 * 0.7 = 63.14`. -/
theorem update_scenario_top_bounce :
    (c3Particle.update 1 800 600).position = ⟨10, 3/2⟩ ∧
    (c3Particle.update 1 800 600).velocity = ⟨0, 6314/100⟩ := by
  norm_num [Particle.update, applyGravity, applyVelocity, clampBottom, clampTop,
    clampRight, clampLeft, radius, PARTICLE_SIZE, GRAVITY, BOUNCE_DAMPING, c3Particle]

/-- C4 witness particle: launched downward fast enough to cross the floor. -/
def c4Particle : Particle := ⟨⟨10, 10⟩, ⟨0, 600⟩, ⟨1, 1, 1, 1⟩⟩

/-- **C4.** If after gravity and the position update the tentative position
penetrates the bottom boundary (position.y + radius > height), and the
top-boundary check does not also fire on the state the bottom clamp left
(¬ (height - radius) - radius < 0), then the final velocity.y is the
pre-clamp velocity.y negated and scaled by the damping factor. -/
theorem bottom_bounce_damping (p : Particle) (dt width height : ℚ)
    (hbot : (applyVelocity dt (applyGravity dt p)).position.y + radius > height)
    (htop : ¬ ((height - radius) - radius < 0)) :
    (p.update dt width height).velocity.y =
      -(applyVelocity dt (applyGravity dt p)).velocity.y * BOUNCE_DAMPING := by
  unfold Particle.update
  rw [clampLeft_velocity_y, clampRight_velocity_y]
  unfold clampBottom
  rw [if_pos hbot]
  unfold clampTop
  simp only
  rw [if_neg htop]

/-- Closed witness for C4: the particle at (10,10) with velocity (0,600)
crosses the floor of the 800×600 box in one dt = 1 step and rebounds with
velocity.y = -609.8 · 0.7 = -426.86. -/
theorem bottom_bounce_damping_witness :
    (applyVelocity 1 (applyGravity 1 c4Particle)).position.y + radius > 600 ∧
    ¬ (((600 : ℚ) - radius) - radius < 0) ∧
    (c4Particle.update 1 800 600).velocity.y =
      -(applyVelocity 1 (applyGravity 1 c4Particle)).velocity.y * BOUNCE_DAMPING :=
  ⟨by norm_num [applyVelocity, applyGravity, c4Particle, radius, PARTICLE_SIZE, GRAVITY],
   by norm_num [radius, PARTICLE_SIZE],
   bottom_bounce_damping c4Particle 1 800 600
     (by norm_num [applyVelocity, applyGravity, c4Particle, radius, PARTICLE_SIZE, GRAVITY])
     (by norm_num [radius, PARTICLE_SIZE])⟩

/-- **C10.** (a) The integration step never modifies a particle's color.
(b) The boundary checks run in source order bottom, top, right, left, each
reading the state the previous one left: when the bottom-boundary condition
fires and the top-boundary condition then also fires on the clamped state
(which requires height - 2·radius < 0), the final position.y is radius (the
top clamp wins) and the final velocity.y is the pre-clamp velocity.y with
its sign kept and magnitude scaled by the damping factor squared, 49/100. -/
theorem double_vertical_bounce :
    (∀ (p : Particle) (dt width height : ℚ),
      (p.update dt width height).color = p.color) ∧
    (∀ (p : Particle) (dt width height : ℚ),
      (applyVelocity dt (applyGravity dt p)).position.y + radius > height →
      (height - radius) - radius < 0 →
      (p.update dt width height).position.y = radius ∧
      (p.update dt width height).velocity.y =
        (applyVelocity dt (applyGravity dt p)).velocity.y * (49/100)) := by
  constructor
  · intro p dt width height
    unfold Particle.update clampLeft clampRight clampTop clampBottom applyVelocity applyGravity
    split_ifs <;> rfl
  · intro p dt width height hbot htop
    unfold Particle.update
    rw [clampLeft_position_y, clampRight_position_y, clampLeft_velocity_y,
      clampRight_velocity_y]
    unfold clampBottom
    rw [if_pos hbot]
    unfold clampTop
    simp only
    rw [if_pos htop]
    constructor
    · rfl
    · simp only [BOUNCE_DAMPING]
      norm_num
      ring

/-- C10 witness particle and bounds: a 800×1 box is shorter than the
particle diameter, so both vertical clamps fire in one step. -/
def c10Particle : Particle := ⟨⟨10, 0⟩, ⟨0, 0⟩, ⟨1, 1, 1, 1⟩⟩

/-- Closed witness for C10 in the 800×1 box with dt = 1: gravity brings
velocity.y to 9.8, both vertical clamps fire, and the step ends with
position.y = radius and velocity.y = 9.8 · 49/100 = 4.802. -/
theorem double_vertical_bounce_witness :
    (c10Particle.update 1 800 1).color = c10Particle.color ∧
    (applyVelocity 1 (applyGravity 1 c10Particle)).position.y + radius > 1 ∧
    ((1 : ℚ) - radius) - radius < 0 ∧
    ((c10Particle.update 1 800 1).position.y = radius ∧
     (c10Particle.update 1 800 1).velocity.y =
       (applyVelocity 1 (applyGravity 1 c10Particle)).velocity.y * (49/100)) :=
  ⟨double_vertical_bounce.1 c10Particle 1 800 1,
   by norm_num [applyVelocity, applyGravity, c10Particle, radius, PARTICLE_SIZE, GRAVITY],
   by norm_num [radius, PARTICLE_SIZE],
   double_vertical_bounce.2 c10Particle 1 800 1
     (by norm_num [applyVelocity, applyGravity, c10Particle, radius, PARTICLE_SIZE, GRAVITY])
     (by norm_num [radius, PARTICLE_SIZE])⟩

/-- Model of `rng.gen_range(lo..hi)`: a uniform draw from `[lo, hi)`,
parametrized by a unit sample `u`; for `u ∈ [0, 1)` and `lo < hi` the result
lies in `[lo, hi)`, which is the contract rand guarantees. -/
def genRange (lo hi u : ℚ) : ℚ := lo + u * (hi - lo)

/-- `ParticleSimulation` from src/main.rs lines 129-131. -/
structure ParticleSimulation where
  particles : List Particle
deriving DecidableEq, Repr

/-- `ParticleSimulation::new`, src/main.rs lines 134-157: `NUM_PARTICLES`
particles, each built from seven successive random draws in source order
(x, y, vx, vy, r, g, b), with alpha fixed at 1.0. The thread-local RNG is
modelled by the unit-sample family `u`. -/
def ParticleSimulation.new (width height : ℚ) (u : Nat → Fin 7 → ℚ) : ParticleSimulation :=
  ⟨(List.range NUM_PARTICLES).map (fun i =>
    Particle.mk
      ⟨genRange 0 width (u i 0), genRange 0 height (u i 1)⟩
      ⟨genRange (-INITIAL_VELOCITY_RANGE) INITIAL_VELOCITY_RANGE (u i 2),
       genRange (-INITIAL_VELOCITY_RANGE) INITIAL_VELOCITY_RANGE (u i 3)⟩
      ⟨genRange 0.3 1.0 (u i 4), genRange 0.3 1.0 (u i 5), genRange 0.3 1.0 (u i 6), 1.0⟩)⟩

/-- `ParticleSimulation::update`, src/main.rs lines 159-163. -/
def ParticleSimulation.update (s : ParticleSimulation) (dt width height : ℚ) :
    ParticleSimulation :=
  ⟨s.particles.map (fun p => p.update dt width height)⟩

/-- `ParticleSimulation::get_instance_data`, src/main.rs lines 165-168. -/
def ParticleSimulation.get_instance_data (s : ParticleSimulation) : List ParticleInstance :=
  s.particles.map Particle.to_instance

lemma genRange_bounds (lo hi u : ℚ) (hlt : lo < hi) (h0 : 0 ≤ u) (h1 : u < 1) :
    lo ≤ genRange lo hi u ∧ genRange lo hi u < hi := by
  unfold genRange
  constructor
  · nlinarith
  · nlinarith

/-- **C5.** Initialization with positive bounds and unit samples in [0,1)
produces exactly 5000 particles; every particle has position in
[0,width)×[0,height), velocity components of magnitude at most 50 per axis,
R, G, B channels in [0.3, 1.0), and alpha exactly 1.0. -/
theorem new_simulation_spec (width height : ℚ) (u : Nat → Fin 7 → ℚ)
    (hw : 0 < width) (hh : 0 < height)
    (hu : ∀ i k, 0 ≤ u i k ∧ u i k < 1) :
    (ParticleSimulation.new width height u).particles.length = 5000 ∧
    ∀ p ∈ (ParticleSimulation.new width height u).particles,
      (0 ≤ p.position.x ∧ p.position.x < width) ∧
      (0 ≤ p.position.y ∧ p.position.y < height) ∧
      (|p.velocity.x| ≤ 50 ∧ |p.velocity.y| ≤ 50) ∧
      ((0.3 : ℚ) ≤ p.color.r ∧ p.color.r < 1.0) ∧
      ((0.3 : ℚ) ≤ p.color.g ∧ p.color.g < 1.0) ∧
      ((0.3 : ℚ) ≤ p.color.b ∧ p.color.b < 1.0) ∧
      p.color.a = 1.0 := by
  constructor
  · simp only [ParticleSimulation.new, List.length_map, List.length_range, NUM_PARTICLES]
  · intro p hp
    simp only [ParticleSimulation.new, List.mem_map, List.mem_range] at hp
    obtain ⟨i, hi, rfl⟩ := hp
    obtain ⟨h0x, h1x⟩ := hu i 0
    obtain ⟨h0y, h1y⟩ := hu i 1
    obtain ⟨h0vx, h1vx⟩ := hu i 2
    obtain ⟨h0vy, h1vy⟩ := hu i 3
    obtain ⟨h0r, h1r⟩ := hu i 4
    obtain ⟨h0g, h1g⟩ := hu i 5
    obtain ⟨h0b, h1b⟩ := hu i 6
    dsimp only
    simp only [genRange, INITIAL_VELOCITY_RANGE, abs_le]
    refine ⟨⟨?_, ?_⟩, ⟨?_, ?_⟩, ⟨⟨?_, ?_⟩, ⟨?_, ?_⟩⟩, ⟨?_, ?_⟩, ⟨?_, ?_⟩, ⟨?_, ?_⟩, trivial⟩
    · nlinarith [h0x, hw]
    · nlinarith [h1x, hw]
    · nlinarith [h0y, hh]
    · nlinarith [h1y, hh]
    · linarith [h0vx]
    · linarith [h1vx]
    · linarith [h0vy]
    · linarith [h1vy]
    · linarith [h0r]
    · linarith [h1r]
    · linarith [h0g]
    · linarith [h1g]
    · linarith [h0b]
    · linarith [h1b]

/-- A degenerate unit-sample family: every draw is 1/2. -/
def halfDraw : Nat → Fin 7 → ℚ := fun _ _ => 1/2

/-- Closed witness for C5 at bounds 800×600 with every unit sample 1/2. -/
theorem new_simulation_spec_witness :
    (0 : ℚ) < 800 ∧ (0 : ℚ) < 600 ∧
    (∀ i k, 0 ≤ halfDraw i k ∧ halfDraw i k < 1) ∧
    ((ParticleSimulation.new 800 600 halfDraw).particles.length = 5000 ∧
     ∀ p ∈ (ParticleSimulation.new 800 600 halfDraw).particles,
       (0 ≤ p.position.x ∧ p.position.x < 800) ∧
       (0 ≤ p.position.y ∧ p.position.y < 600) ∧
       (|p.velocity.x| ≤ 50 ∧ |p.velocity.y| ≤ 50) ∧
       ((0.3 : ℚ) ≤ p.color.r ∧ p.color.r < 1.0) ∧
       ((0.3 : ℚ) ≤ p.color.g ∧ p.color.g < 1.0) ∧
       ((0.3 : ℚ) ≤ p.color.b ∧ p.color.b < 1.0) ∧
       p.color.a = 1.0) :=
  ⟨by norm_num, by norm_num,
   fun i k => ⟨by norm_num [halfDraw], by norm_num [halfDraw]⟩,
   new_simulation_spec 800 600 halfDraw (by norm_num) (by norm_num)
     (fun i k => ⟨by norm_num [halfDraw], by norm_num [halfDraw]⟩)⟩

/-- **C9.** The projection is a pure, deterministic, order-preserving
function of the current store state: two calls with no intervening step
yield identical output, the output has one element per particle, and the
i-th instance is exactly the i-th particle's position and color. -/
theorem get_instance_data_pure (s : ParticleSimulation) :
    s.get_instance_data = s.get_instance_data ∧
    s.get_instance_data.length = s.particles.length ∧
    ∀ i : Nat, s.get_instance_data[i]? = (s.particles[i]?).map Particle.to_instance := by
  refine ⟨rfl, by simp [ParticleSimulation.get_instance_data], fun i => ?_⟩
  simp [ParticleSimulation.get_instance_data, List.getElem?_map]

/-- `wgpu::PresentMode`; the program only ever uses `Fifo` (line 227). -/
inductive PresentMode
  | Fifo
deriving DecidableEq, Repr

/-- A surface texture format, opaque to the claims: chosen once at startup
(src/main.rs lines 214-220) and never changed afterwards. -/
structure TextureFormat where
  code : Nat
deriving DecidableEq, Repr

/-- The claim-relevant fields of `wgpu::SurfaceConfiguration`
(src/main.rs lines 222-230); `usage`, `alpha_mode` and `view_formats` are
compile-time constants never read back and are omitted. -/
structure SurfaceConfiguration where
  format : TextureFormat
  width : Nat
  height : Nat
  present_mode : PresentMode
deriving DecidableEq, Repr

/-- The shader module a pipeline was built from: the startup path uses
`shader.wgsl` verbatim (line 262); the resize path uses `shader_code.wgsl`
with `PARTICLE_SIZE`, `SCREEN_WIDTH`, `SCREEN_HEIGHT` substituted into the
source text (lines 330-333). -/
inductive ShaderModule
  | shaderWgsl
  | shaderCodeWgsl (particle_size screen_width screen_height : ℚ)
deriving DecidableEq, Repr

/-- A render pipeline, modelled by the data that parameterizes its build:
the color-target format and the shader module (src/main.rs lines 271-307
and 347-383; the remaining fixed-function state is identical constant
structure in both build sites). -/
structure RenderPipeline where
  format : TextureFormat
  shader : ShaderModule
deriving DecidableEq, Repr

/-- `winit::dpi::PhysicalSize<u32>`. -/
structure PhysicalSize where
  width : Nat
  height : Nat
deriving DecidableEq, Repr

/-- The claim-relevant fields of `State` (src/main.rs lines 170-180).
`surface`, `device`, `queue` and the handles inside the buffers are opaque
GPU objects; the instance buffer is modelled by the element count it was
sized for at creation, and the vertex buffer (a 6-vertex constant) is
omitted. -/
structure State where
  config : SurfaceConfiguration
  size : PhysicalSize
  render_pipeline : RenderPipeline
  simulation : ParticleSimulation
  instance_buffer_len : Nat
deriving DecidableEq, Repr

/-- `State::new`, src/main.rs lines 183-320: configures the surface with the
window size and FIFO present mode, builds the initial pipeline from
`shader.wgsl`, creates the simulation, and sizes the instance buffer from
the initial instance data. The chosen surface format and the RNG are
parameters. -/
def State.new (size : PhysicalSize) (fmt : TextureFormat) (u : Nat → Fin 7 → ℚ) : State :=
  { config := ⟨fmt, size.width, size.height, PresentMode.Fifo⟩
  , size := size
  , render_pipeline := ⟨fmt, ShaderModule.shaderWgsl⟩
  , simulation := ParticleSimulation.new size.width size.height u
  , instance_buffer_len :=
      (ParticleSimulation.new size.width size.height u).get_instance_data.length }

/-- `State::resize`, src/main.rs lines 322-385: when both dimensions are
positive, stores the new size, reconfigures the surface, and rebuilds the
pipeline from `shader_code.wgsl` with the constants substituted; otherwise
does nothing. -/
def State.resize (s : State) (new_size : PhysicalSize) : State :=
  if new_size.width > 0 ∧ new_size.height > 0 then
    { s with size := new_size
           , config := { s.config with width := new_size.width, height := new_size.height }
           , render_pipeline :=
               ⟨s.config.format,
                ShaderModule.shaderCodeWgsl PARTICLE_SIZE new_size.width new_size.height⟩ }
  else s

/-- `State::update`, src/main.rs lines 387-397: steps the simulation with
the stored size as bounds and overwrites the instance buffer contents
(`write_buffer` at offset 0, which does not change the buffer's size). -/
def State.update (s : State) (dt : ℚ) : State :=
  { s with simulation := s.simulation.update dt s.size.width s.size.height }

/-- A driver-visible operation on the `State`: a per-frame `update(dt)` or a
window `resize(new_size)` (the two mutating transitions of the event loop,
src/main.rs lines 470-475 and 483). -/
inductive Event
  | update (dt : ℚ)
  | resize (new_size : PhysicalSize)

/-- One driver-invoked transition. -/
def State.step (s : State) (e : Event) : State :=
  match e with
  | Event.update dt => s.update dt
  | Event.resize sz => s.resize sz

lemma step_counts (s : State) (e : Event) :
    (s.step e).simulation.particles.length = s.simulation.particles.length ∧
    (s.step e).instance_buffer_len = s.instance_buffer_len := by
  cases e with
  | update dt =>
    exact ⟨by simp [State.step, State.update, ParticleSimulation.update], rfl⟩
  | resize sz =>
    have hstep : s.step (Event.resize sz) = s.resize sz := rfl
    rw [hstep]
    unfold State.resize
    split_ifs <;> exact ⟨rfl, rfl⟩

lemma foldl_step_counts (ops : List Event) :
    ∀ s : State,
      (ops.foldl State.step s).simulation.particles.length = s.simulation.particles.length ∧
      (ops.foldl State.step s).instance_buffer_len = s.instance_buffer_len := by
  induction ops with
  | nil => exact fun s => ⟨rfl, rfl⟩
  | cons e rest ih =>
    intro s
    rw [List.foldl_cons]
    obtain ⟨h1, h2⟩ := ih (s.step e)
    obtain ⟨g1, g2⟩ := step_counts s e
    exact ⟨h1.trans g1, h2.trans g2⟩

/-- **C6.** After initialization, every sequence of update and resize
operations leaves the particle count at 5000 and the projection output with
exactly 5000 elements, which is the element count the instance buffer was
sized for at creation. -/
theorem instance_count_invariant (size0 : PhysicalSize) (fmt : TextureFormat)
    (u : Nat → Fin 7 → ℚ) (ops : List Event) :
    (ops.foldl State.step (State.new size0 fmt u)).simulation.particles.length = 5000 ∧
    (ops.foldl State.step (State.new size0 fmt u)).simulation.get_instance_data.length = 5000 ∧
    (ops.foldl State.step (State.new size0 fmt u)).instance_buffer_len =
      (State.new size0 fmt u).instance_buffer_len ∧
    (State.new size0 fmt u).instance_buffer_len = 5000 := by
  have init_len : (State.new size0 fmt u).simulation.particles.length = 5000 := by
    simp only [State.new, ParticleSimulation.new, List.length_map, List.length_range,
      NUM_PARTICLES]
  have init_buf : (State.new size0 fmt u).instance_buffer_len = 5000 := by
    simp only [State.new, ParticleSimulation.get_instance_data, ParticleSimulation.new,
      List.length_map, List.length_range, NUM_PARTICLES]
  obtain ⟨h1, h2⟩ := foldl_step_counts ops (State.new size0 fmt u)
  refine ⟨h1.trans init_len, ?_, h2, init_buf⟩
  simp only [ParticleSimulation.get_instance_data, List.length_map]
  exact h1.trans init_len

/-- **C7.** Resizing to a size with a zero dimension leaves the entire
`State` unchanged: stored size, surface configuration (format, width,
height, present mode), pipeline and simulation are exactly as before. -/
theorem resize_zero_noop (s : State) (new_size : PhysicalSize)
    (h : new_size.width = 0 ∨ new_size.height = 0) :
    s.resize new_size = s := by
  unfold State.resize
  rw [if_neg]
  rcases h with h | h <;> simp [h]

/-- Closed witness for C7: resizing a freshly created 800×600 state to
0×600 changes nothing. -/
theorem resize_zero_noop_witness :
    ((⟨0, 600⟩ : PhysicalSize).width = 0 ∨ (⟨0, 600⟩ : PhysicalSize).height = 0) ∧
    (State.new ⟨800, 600⟩ ⟨0⟩ halfDraw).resize ⟨0, 600⟩ =
      State.new ⟨800, 600⟩ ⟨0⟩ halfDraw :=
  ⟨Or.inl rfl,
   resize_zero_noop (State.new ⟨800, 600⟩ ⟨0⟩ halfDraw) ⟨0, 600⟩ (Or.inl rfl)⟩

/-- `wgpu::SurfaceError` variants matched by the event loop. -/
inductive SurfaceError
  | Lost
  | OutOfMemory
  | Timeout
  | Outdated
deriving DecidableEq, Repr

/-- Observable outcome of one render dispatch: the state afterwards,
whether the event loop was told to exit (`ControlFlow::Exit`), whether a
frame was presented, and whether the error was logged (`eprintln`). -/
structure RenderOutcome where
  state : State
  shouldExit : Bool
  presented : Bool
  logged : Bool
deriving DecidableEq, Repr

/-- The per-tick render dispatch, src/main.rs lines 484-489: `render()`
presents only when it succeeds (`none`); on `Lost` the handler resizes to
the current stored size; on `OutOfMemory` it sets `ControlFlow::Exit`; any
other error is logged and the frame skipped with no retry. -/
def handleRenderResult (s : State) (r : Option SurfaceError) : RenderOutcome :=
  match r with
  | none => ⟨s, false, true, false⟩
  | some SurfaceError.Lost => ⟨s.resize s.size, false, false, false⟩
  | some SurfaceError.OutOfMemory => ⟨s, true, false, false⟩
  | some SurfaceError.Timeout => ⟨s, false, false, true⟩
  | some SurfaceError.Outdated => ⟨s, false, false, true⟩

/-- **C8.** On `Lost` the dispatch resizes to the current stored size
(rebuilding the pipeline whenever that size is nonzero) and presents
nothing; on `OutOfMemory` it terminates the event loop; on `Timeout` or
`Outdated` it logs, skips the frame, and leaves the state unchanged. -/
theorem render_error_dispatch (s : State) :
    (handleRenderResult s (some SurfaceError.Lost)).state = s.resize s.size ∧
    (handleRenderResult s (some SurfaceError.Lost)).presented = false ∧
    (handleRenderResult s (some SurfaceError.Lost)).shouldExit = false ∧
    (handleRenderResult s (some SurfaceError.OutOfMemory)).shouldExit = true ∧
    (handleRenderResult s (some SurfaceError.OutOfMemory)).presented = false ∧
    (∀ e, e = SurfaceError.Timeout ∨ e = SurfaceError.Outdated →
      handleRenderResult s (some e) = ⟨s, false, false, true⟩) ∧
    (0 < s.size.width → 0 < s.size.height →
      (handleRenderResult s (some SurfaceError.Lost)).state.render_pipeline =
        ⟨s.config.format,
         ShaderModule.shaderCodeWgsl PARTICLE_SIZE s.size.width s.size.height⟩) := by
  refine ⟨rfl, rfl, rfl, rfl, rfl, ?_, ?_⟩
  · rintro e (rfl | rfl) <;> rfl
  · intro h1 h2
    have hs : (handleRenderResult s (some SurfaceError.Lost)).state = s.resize s.size := rfl
    rw [hs]
    unfold State.resize
    rw [if_pos ⟨h1, h2⟩]

/-- Closed witness for C8 on a freshly created 800×600 state. -/
theorem render_error_dispatch_witness :
    0 < (State.new ⟨800, 600⟩ ⟨0⟩ halfDraw).size.width ∧
    0 < (State.new ⟨800, 600⟩ ⟨0⟩ halfDraw).size.height ∧
    (handleRenderResult (State.new ⟨800, 600⟩ ⟨0⟩ halfDraw)
        (some SurfaceError.Lost)).state.render_pipeline =
      ⟨(State.new ⟨800, 600⟩ ⟨0⟩ halfDraw).config.format,
       ShaderModule.shaderCodeWgsl PARTICLE_SIZE
         (State.new ⟨800, 600⟩ ⟨0⟩ halfDraw).size.width
         (State.new ⟨800, 600⟩ ⟨0⟩ halfDraw).size.height⟩ ∧
    handleRenderResult (State.new ⟨800, 600⟩ ⟨0⟩ halfDraw)
        (some SurfaceError.Timeout) =
      ⟨State.new ⟨800, 600⟩ ⟨0⟩ halfDraw, false, false, true⟩ := by
  have h := render_error_dispatch (State.new ⟨800, 600⟩ ⟨0⟩ halfDraw)
  have hw : 0 < (State.new ⟨800, 600⟩ ⟨0⟩ halfDraw).size.width := by decide
  have hh : 0 < (State.new ⟨800, 600⟩ ⟨0⟩ halfDraw).size.height := by decide
  exact ⟨hw, hh, h.2.2.2.2.2.2 hw hh,
    h.2.2.2.2.2.1 SurfaceError.Timeout (Or.inl rfl)⟩

end Parsim
